import Mathlib

/-!
Shallow embedding of the `differential` Python package
(`src/differential/differentiable.py` and `src/differential/functions.py`).

Modelling conventions:
* Python floats are idealised as real numbers `ℝ`.
* A mapping that may raise at evaluation time is `ℝ → Except Err ℝ`;
  the error kinds model the Python exceptions that can actually occur:
  `ValueError` from `math.sqrt` of a negative (the spec's DomainError),
  `ZeroDivisionError` (the spec's DivisionError), `KeyError` from a
  dispatch-dict lookup (the spec's DispatchError), `AttributeError` from
  accessing `.value`/`.derivative` on a non-`Differentiable` object, and
  the host `TypeError` for an unimplemented operator protocol.
* The runtime-typed right-hand operand of an arithmetic operator is the
  sum type `PyVal`: a float, an int, a `Differentiable`, or any object of
  some other type.  The dispatch dictionaries key on the exact runtime
  type, so they are functions `PyVal → Option visitor`; a `none` models
  the `KeyError` raised by `dict[type(other)]`.
* Evaluation order of the Python lambdas is preserved by the order of
  monadic binds; because the mappings are pure, a sub-expression the
  Python code evaluates twice (e.g. `self.other.value(x)` in the
  quotient-rule derivative) is bound once and reused.
-/

namespace Differential

/-- Error kinds observable at combination or evaluation time. -/
inductive Err where
  | domainError
  | divisionError
  | dispatchError
  | attributeError
  | typeError
  deriving DecidableEq, Repr

/-- Result of invoking a value or derivative mapping. -/
abbrev Res := Except Err ℝ

/-- The core dataclass: a pair of fallible unary mappings
(`Differentiable` in `differentiable.py`). -/
structure Differentiable where
  value : ℝ → Res
  derivative : ℝ → Res

/-- The `_Visitable.__call__` protocol: invoking the function-as-object
with a visitor delegates to the visitor's single method, passing itself. -/
def Differentiable.call (one : Differentiable) (visit : Differentiable → β) : β :=
  visit one

/-- Model of Python `math.sqrt`: raises `ValueError` (DomainError) on a
negative argument, otherwise returns the real square root. -/
noncomputable def mathSqrt (a : ℝ) : Res :=
  if a < 0 then .error .domainError else .ok (Real.sqrt a)

/-- Model of Python float division: raises `ZeroDivisionError`
(DivisionError) when the denominator is exactly zero. -/
noncomputable def floatDiv (a b : ℝ) : Res :=
  if b = 0 then .error .divisionError else .ok (a / b)

/-- The runtime-typed right-hand operand of an arithmetic operator. -/
inductive PyVal where
  | float (c : ℝ)
  | int (n : ℤ)
  | diff (f : Differentiable)
  | other

/-- Accessing `.value` on an arbitrary object and calling it: only a
`Differentiable` has the attribute; anything else raises
`AttributeError` when the composite's lambda runs. -/
def PyVal.valueAttr : PyVal → ℝ → Res
  | .diff g, x => g.value x
  | _, _ => .error .attributeError

/-- Accessing `.derivative` on an arbitrary object and calling it. -/
def PyVal.derivativeAttr : PyVal → ℝ → Res
  | .diff g, x => g.derivative x
  | _, _ => .error .attributeError

/-- `_AddConstant.visit`: value `one.value(x) + c`, derivative shared
with the operand. -/
def AddConstant (constant : ℝ) (one : Differentiable) : Differentiable where
  value := fun x => do pure ((← one.value x) + constant)
  derivative := one.derivative

/-- `_AddDifferentiable.visit`: sum rule. -/
def AddDifferentiable (other : Differentiable) (one : Differentiable) : Differentiable where
  value := fun x => do pure ((← one.value x) + (← other.value x))
  derivative := fun x => do pure ((← one.derivative x) + (← other.derivative x))

/-- `_SubConstant.visit`: value `one.value(x) - c`, derivative shared. -/
def SubConstant (constant : ℝ) (one : Differentiable) : Differentiable where
  value := fun x => do pure ((← one.value x) - constant)
  derivative := one.derivative

/-- `_RSubConstant.visit`: value `c - one.value(x)`, derivative negated. -/
def RSubConstant (constant : ℝ) (one : Differentiable) : Differentiable where
  value := fun x => do pure (constant - (← one.value x))
  derivative := fun x => do pure (-(← one.derivative x))

/-- `_SubDifferentiable.visit`: difference rule. -/
def SubDifferentiable (other : Differentiable) (one : Differentiable) : Differentiable where
  value := fun x => do pure ((← one.value x) - (← other.value x))
  derivative := fun x => do pure ((← one.derivative x) - (← other.derivative x))

/-- `_ScaleDifferentiable.visit`: value `c * one.value(x)`, derivative
`c * one.derivative(x)`. -/
def ScaleDifferentiable (scaling : ℝ) (one : Differentiable) : Differentiable where
  value := fun x => do pure (scaling * (← one.value x))
  derivative := fun x => do pure (scaling * (← one.derivative x))

/-- `_MultiplyDifferentiable.visit`: product rule, in the source's
evaluation order (`other` first in the value, `other.derivative`,
`one.value`, `one.derivative`, `other.value` in the derivative). -/
def MultiplyDifferentiable (other : Differentiable) (one : Differentiable) : Differentiable where
  value := fun x => do
    let gv ← other.value x
    let fv ← one.value x
    pure (gv * fv)
  derivative := fun x => do
    let gd ← other.derivative x
    let fv ← one.value x
    let fd ← one.derivative x
    let gv ← other.value x
    pure (gd * fv + fd * gv)

/-- `_TrueDivDifferentiable.visit`: quotient rule.  The stored operand is
kept at the Python dynamic type because `_truediv_operator` forwards it
without dispatching; attribute access fails at evaluation time when it is
not a `Differentiable`. -/
noncomputable def TrueDivDifferentiable (other : PyVal) (one : Differentiable) : Differentiable where
  value := fun x => do
    let fv ← one.value x
    let gv ← other.valueAttr x
    floatDiv fv gv
  derivative := fun x => do
    let fd ← one.derivative x
    let gv ← other.valueAttr x
    let gd ← other.derivativeAttr x
    let fv ← one.value x
    floatDiv (fd * gv - gd * fv) (gv ^ 2)

/-- `add_dispatch`: the dict `{float: _AddConstant, Differentiable:
_AddDifferentiable}` looked up at the operand's exact runtime type;
`none` models the `KeyError` for an absent key. -/
def add_dispatch : PyVal → Option (Differentiable → Differentiable)
  | .float c => some (AddConstant c)
  | .diff g => some (AddDifferentiable g)
  | .int _ => none
  | .other => none

/-- `sub_dispatch`: `{float: _SubConstant, Differentiable: _SubDifferentiable}`. -/
def sub_dispatch : PyVal → Option (Differentiable → Differentiable)
  | .float c => some (SubConstant c)
  | .diff g => some (SubDifferentiable g)
  | .int _ => none
  | .other => none

/-- `rsub_dispatch`: `{float: _RSubConstant, Differentiable: _SubDifferentiable}`. -/
def rsub_dispatch : PyVal → Option (Differentiable → Differentiable)
  | .float c => some (RSubConstant c)
  | .diff g => some (SubDifferentiable g)
  | .int _ => none
  | .other => none

/-- `mul_dispatch`: `{float: _ScaleDifferentiable, Differentiable:
_MultiplyDifferentiable}`. -/
def mul_dispatch : PyVal → Option (Differentiable → Differentiable)
  | .float c => some (ScaleDifferentiable c)
  | .diff g => some (MultiplyDifferentiable g)
  | .int _ => none
  | .other => none

/-- `_add_operator`: `self(add_dispatch[type(other)](other))`; the dict
lookup raises `KeyError` (DispatchError) at combination time for an
unregistered operand type. -/
def add_operator (self : Differentiable) (other : PyVal) : Except Err Differentiable :=
  match add_dispatch other with
  | some v => .ok (self.call v)
  | none => .error .dispatchError

/-- `_sub_operator`. -/
def sub_operator (self : Differentiable) (other : PyVal) : Except Err Differentiable :=
  match sub_dispatch other with
  | some v => .ok (self.call v)
  | none => .error .dispatchError

/-- `_rsub_operator`. -/
def rsub_operator (self : Differentiable) (other : PyVal) : Except Err Differentiable :=
  match rsub_dispatch other with
  | some v => .ok (self.call v)
  | none => .error .dispatchError

/-- `_mul_operator`. -/
def mul_operator (self : Differentiable) (other : PyVal) : Except Err Differentiable :=
  match mul_dispatch other with
  | some v => .ok (self.call v)
  | none => .error .dispatchError

/-- `_truediv_operator`: `self(_TrueDivDifferentiable(other))` — no
dispatch dict at all, so combination always succeeds, whatever `other`
is. -/
noncomputable def truediv_operator (self : Differentiable) (other : PyVal) :
    Except Err Differentiable :=
  .ok (self.call (TrueDivDifferentiable other))

/-- The operator hooks of the Python data model relevant to the class. -/
inductive Hook where
  | add | radd | sub | rsub | mul | rmul | truediv | rtruediv
  deriving DecidableEq, Repr

/-- The assignment block at the bottom of `differentiable.py`:
`__add__`/`__radd__` are `_add_operator`, `__sub__` is `_sub_operator`,
`__rsub__` is `_rsub_operator`, `__mul__`/`__rmul__` are
`_mul_operator`, `__truediv__` is `_truediv_operator`, and
`__rtruediv__` is never assigned. -/
noncomputable def hookTable : Hook → Option (Differentiable → PyVal → Except Err Differentiable)
  | .add => some add_operator
  | .radd => some add_operator
  | .sub => some sub_operator
  | .rsub => some rsub_operator
  | .mul => some mul_operator
  | .rmul => some mul_operator
  | .truediv => some truediv_operator
  | .rtruediv => none

/-- Host semantics of `c ⊘ f` for a bare float `c` and a `Differentiable`
`f`: the float type's own method returns `NotImplemented`, so the host
consults the reflected hook on `type(f)`; a registered hook is called as
`hook(f, c)`, an absent one makes the expression a `TypeError`. -/
noncomputable def hostScalarLeftOp (h : Hook) (c : ℝ) (f : Differentiable) :
    Except Err Differentiable :=
  match hookTable h with
  | some op => op f (.float c)
  | none => .error .typeError

/-- `Sqrt` from `functions.py`: value `math.sqrt(f.value(x))`, derivative
`0.5 * f.derivative(x) / math.sqrt(f.value(x))` in the source's
evaluation order. -/
noncomputable def Sqrt (f : Differentiable) : Differentiable where
  value := fun x => do mathSqrt (← f.value x)
  derivative := fun x => do
    let fd ← f.derivative x
    let fv ← f.value x
    let s ← mathSqrt fv
    floatDiv (0.5 * fd) s

/-- `Cos` from `functions.py`. -/
noncomputable def Cos (f : Differentiable) : Differentiable where
  value := fun x => do pure (Real.cos (← f.value x))
  derivative := fun x => do
    let fv ← f.value x
    let fd ← f.derivative x
    pure (-Real.sin fv * fd)

/-- `Sin` from `functions.py`. -/
noncomputable def Sin (f : Differentiable) : Differentiable where
  value := fun x => do pure (Real.sin (← f.value x))
  derivative := fun x => do
    let fv ← f.value x
    let fd ← f.derivative x
    pure (Real.cos fv * fd)

/-- `Constant` from `functions.py`. -/
def Constant (k : ℝ) : Differentiable where
  value := fun _ => .ok k
  derivative := fun _ => .ok 0

/-- `Linear` from `functions.py`. -/
def Linear (k : ℝ) : Differentiable where
  value := fun x => .ok (k * x)
  derivative := fun _ => .ok k

/-- Operand types for which the four dispatch dictionaries hold a rule:
a bare float scalar or another `Differentiable`. -/
def registeredOperand : PyVal → Prop
  | .float _ => True
  | .diff _ => True
  | .int _ => False
  | .other => False

@[simp]
theorem ok_bind (a : α) (k : α → Except Err β) :
    (Except.ok a >>= k : Except Err β) = k a := rfl

@[simp]
theorem error_bind (e : Err) (k : α → Except Err β) :
    (Except.error e >>= k : Except Err β) = .error e := rfl

/-- Claim C1 counterexample: dividing `Linear(1.0)` by the bare float
`2.0` is not rejected with a DispatchError at combination time — the
operator succeeds and returns a deferred composite. -/
theorem C1_counterexample :
    truediv_operator (Linear 1) (.float 2)
      = .ok (TrueDivDifferentiable (.float 2) (Linear 1)) := rfl

/-- Claim C1 (amended): for every `Differentiable` `f` and bare float
`c`, `f / c` builds a composite without error at combination time; the
failure is deferred to evaluation, where accessing the scalar's missing
`value`/`derivative` mapping raises an AttributeError (not a
DispatchError) at any point where `f`'s own mappings succeed. -/
theorem C1_div_scalar_deferred (f : Differentiable) (c x fv fd : ℝ)
    (hv : f.value x = .ok fv) (hd : f.derivative x = .ok fd) :
    ∃ q, truediv_operator f (.float c) = .ok q ∧
      q.value x = .error .attributeError ∧
      q.derivative x = .error .attributeError := by
  refine ⟨TrueDivDifferentiable (.float c) f, rfl, ?_, ?_⟩ <;>
    simp [TrueDivDifferentiable, PyVal.valueAttr, hv, hd]

/-- Claim C1 witness at `f = Linear 1`, `c = 2`, `x = 0`. -/
theorem C1_div_scalar_deferred_witness :
    ∃ q, truediv_operator (Linear 1) (.float 2) = .ok q ∧
      q.value 0 = .error .attributeError ∧
      q.derivative 0 = .error .attributeError :=
  C1_div_scalar_deferred (Linear 1) 2 0 0 1 (by simp [Linear]) (by simp [Linear])

/-- Claim C2 counterexample: an operand of an unregistered type raises a
DispatchError already at combination time, so it is not true that every
combinator application with an arbitrary right-hand operand succeeds at
combination time. -/
theorem C2_counterexample :
    add_operator (Linear 1) .other = .error .dispatchError := rfl

/-- Claim C2 (amended): for a registered operand (a bare float or a
`Differentiable`) every combinator builds a composite without error at
combination time and without invoking either operand's mappings (the
result exists for arbitrary mappings, including everywhere-failing
ones); for an unregistered operand, addition, subtraction, reverse
subtraction and multiplication raise a DispatchError at combination
time, while division still succeeds and defers all failure to
evaluation. -/
theorem C2_lazy_combination (f : Differentiable) (o : PyVal) :
    (registeredOperand o →
      (∃ a, add_operator f o = .ok a) ∧
      (∃ s, sub_operator f o = .ok s) ∧
      (∃ r, rsub_operator f o = .ok r) ∧
      (∃ m, mul_operator f o = .ok m) ∧
      (∃ d, truediv_operator f o = .ok d)) ∧
    (¬ registeredOperand o →
      add_operator f o = .error .dispatchError ∧
      sub_operator f o = .error .dispatchError ∧
      rsub_operator f o = .error .dispatchError ∧
      mul_operator f o = .error .dispatchError ∧
      (∃ d, truediv_operator f o = .ok d)) := by
  cases o <;>
    simp [registeredOperand, add_operator, sub_operator, rsub_operator, mul_operator,
      truediv_operator, add_dispatch, sub_dispatch, rsub_dispatch, mul_dispatch]

/-- Claim C2 witness: both branches at concrete operands, with a
receiver whose mappings fail everywhere (so success of combination shows
the mappings are not invoked). -/
theorem C2_lazy_combination_witness :
    ((∃ a, add_operator ⟨fun _ => .error .domainError, fun _ => .error .domainError⟩
        (.float 2) = .ok a) ∧
      add_operator ⟨fun _ => .error .domainError, fun _ => .error .domainError⟩
        .other = .error .dispatchError) := by
  refine ⟨((C2_lazy_combination _ (.float 2)).1 trivial).1, ?_⟩
  exact ((C2_lazy_combination
    ⟨fun _ => .error .domainError, fun _ => .error .domainError⟩ .other).2
    (by simp [registeredOperand])).1

/-- Claim C3 counterexample: an integer-valued scalar given as an `int`
is not accepted — `type(2)` is `int`, which is not a key of
`add_dispatch`, so `f + 2` raises a DispatchError (KeyError) at
combination time. -/
theorem C3_counterexample :
    add_operator (Linear 1) (.int 2) = .error .dispatchError := rfl

/-- Claim C3 (amended): addition, subtraction and multiplication accept
a scalar constant only when it is a bare float — a float operand selects
the constant rule (`f + c` has value `f(x) + c` and derivative `f'(x)`)
— while an `int` operand, like any operand that is neither a float nor a
`Differentiable`, has no registered combination rule and raises a
DispatchError at combination time. -/
theorem C3_float_only_dispatch (f : Differentiable) (c : ℝ) (n : ℤ) (x fv fd : ℝ)
    (hv : f.value x = .ok fv) (hd : f.derivative x = .ok fd) :
    (∃ a, add_operator f (.float c) = .ok a ∧
      a.value x = .ok (fv + c) ∧ a.derivative x = .ok fd) ∧
    add_operator f (.int n) = .error .dispatchError ∧
    sub_operator f (.int n) = .error .dispatchError ∧
    mul_operator f (.int n) = .error .dispatchError ∧
    add_operator f .other = .error .dispatchError := by
  refine ⟨⟨AddConstant c f, rfl, ?_, hd⟩, rfl, rfl, rfl, rfl⟩
  simp [AddConstant, hv]

/-- Claim C3 witness at `f = Linear 3`, `c = 2`, `n = 2`, `x = 5`. -/
theorem C3_float_only_dispatch_witness :
    (∃ a, add_operator (Linear 3) (.float 2) = .ok a ∧
      a.value 5 = .ok 17 ∧ a.derivative 5 = .ok 3) ∧
    add_operator (Linear 3) (.int 2) = .error .dispatchError := by
  obtain ⟨h1, h2, _⟩ := C3_float_only_dispatch (Linear 3) 2 2 5 15 3
    (by norm_num [Linear]) (by simp [Linear])
  norm_num at h1
  exact ⟨h1, h2⟩

/-- Claim C4: at every point where both operands' mappings succeed and
the denominator is nonzero, division yields the quotient of values and
the quotient-rule derivative `(f'(x)·g(x) − g'(x)·f(x)) / g(x)²`. -/
theorem C4_quotient_rule (f g : Differentiable) (x fv gv fd gd : ℝ)
    (hfv : f.value x = .ok fv) (hgv : g.value x = .ok gv)
    (hfd : f.derivative x = .ok fd) (hgd : g.derivative x = .ok gd)
    (hgz : gv ≠ 0) :
    ∃ q, truediv_operator f (.diff g) = .ok q ∧
      q.value x = .ok (fv / gv) ∧
      q.derivative x = .ok ((fd * gv - gd * fv) / gv ^ 2) := by
  refine ⟨TrueDivDifferentiable (.diff g) f, rfl, ?_, ?_⟩ <;>
    simp [TrueDivDifferentiable, PyVal.valueAttr, PyVal.derivativeAttr, floatDiv,
      hfv, hgv, hfd, hgd, hgz, pow_eq_zero_iff]

/-- Claim C4 witness at `f = Linear 4`, `g = Linear 2`, `x = 3`:
value `4·3 / (2·3) = 2`, derivative `(4·6 − 2·12) / 6² = 0`. -/
theorem C4_quotient_rule_witness :
    ∃ q, truediv_operator (Linear 4) (.diff (Linear 2)) = .ok q ∧
      q.value 3 = .ok 2 ∧ q.derivative 3 = .ok 0 := by
  obtain ⟨q, hq, hv, hd⟩ := C4_quotient_rule (Linear 4) (Linear 2) 3 12 6 4 2
    (by norm_num [Linear]) (by norm_num [Linear])
    (by simp [Linear]) (by simp [Linear]) (by norm_num)
  norm_num at hv hd
  exact ⟨q, hq, hv, hd⟩

/-- Claim C5: a division operation raises a DivisionError exactly when
its denominator is zero at the evaluation point: at a point where both
operands' mappings succeed, the quotient composite's value and
derivative fail with DivisionError precisely when `g(x) = 0`; concretely
`(Linear(1.0) / Constant(0.0)).value(1.0)` raises DivisionError; and at
a point where `p.value` succeeds with value `0`, `Sqrt(p).value`
succeeds returning `0` while `Sqrt(p).derivative` raises DivisionError
there. -/
theorem C5_division_error_iff (f g p : Differentiable) (x y fv gv fd gd pd : ℝ)
    (hfv : f.value x = .ok fv) (hgv : g.value x = .ok gv)
    (hfd : f.derivative x = .ok fd) (hgd : g.derivative x = .ok gd)
    (hpv : p.value y = .ok 0) (hpd : p.derivative y = .ok pd) :
    ((TrueDivDifferentiable (.diff g) f).value x = .error .divisionError ↔ gv = 0) ∧
    ((TrueDivDifferentiable (.diff g) f).derivative x = .error .divisionError ↔ gv = 0) ∧
    (∃ q, truediv_operator (Linear 1) (.diff (Constant 0)) = .ok q ∧
      q.value 1 = .error .divisionError) ∧
    (Sqrt p).value y = .ok 0 ∧
    (Sqrt p).derivative y = .error .divisionError := by
  refine ⟨?_, ?_, ⟨TrueDivDifferentiable (.diff (Constant 0)) (Linear 1), rfl, ?_⟩, ?_, ?_⟩
  · by_cases hz : gv = 0 <;>
      simp [TrueDivDifferentiable, PyVal.valueAttr, floatDiv, hfv, hgv, hz]
  · by_cases hz : gv = 0 <;>
      simp [TrueDivDifferentiable, PyVal.valueAttr, PyVal.derivativeAttr, floatDiv,
        hfv, hgv, hfd, hgd, hz, pow_eq_zero_iff]
  · simp [TrueDivDifferentiable, PyVal.valueAttr, floatDiv, Linear, Constant]
  · simp [Sqrt, mathSqrt, hpv]
  · simp [Sqrt, mathSqrt, floatDiv, hpv, hpd]

/-- Claim C5 witness at `f = Linear 1`, `g = Constant 0`, `x = 1` (zero
denominator) and `p = Linear 0`, `y = 0` (sqrt of a function vanishing
at the point). -/
theorem C5_division_error_iff_witness :
    (TrueDivDifferentiable (.diff (Constant 0)) (Linear 1)).value 1
        = .error .divisionError ∧
    (Sqrt (Linear 0)).value 0 = .ok 0 ∧
    (Sqrt (Linear 0)).derivative 0 = .error .divisionError := by
  obtain ⟨h1, _, _, h4, h5⟩ := C5_division_error_iff (Linear 1) (Constant 0) (Linear 0)
    1 0 1 0 1 0 0
    (by norm_num [Linear]) (by simp [Constant]) (by simp [Linear]) (by simp [Constant])
    (by norm_num [Linear]) (by simp [Linear])
  exact ⟨h1.mpr rfl, h4, h5⟩

/-- Claim C6: at every point where both operands' mappings succeed, the
product composite's value is `f(x)·g(x)` and its derivative is
`g'(x)·f(x) + f'(x)·g(x)` in exactly that operand order; the order is
observable in that an error in the other operand's derivative mapping is
the one that propagates from the derivative. -/
theorem C6_product_rule (f g : Differentiable) (x fv gv fd gd : ℝ) :
    ∃ m, mul_operator f (.diff g) = .ok m ∧
      (f.value x = .ok fv → g.value x = .ok gv → m.value x = .ok (fv * gv)) ∧
      (f.value x = .ok fv → g.value x = .ok gv →
        f.derivative x = .ok fd → g.derivative x = .ok gd →
        m.derivative x = .ok (gd * fv + fd * gv)) ∧
      (∀ e, g.derivative x = .error e → m.derivative x = .error e) := by
  refine ⟨MultiplyDifferentiable g f, rfl, ?_, ?_, ?_⟩
  · intro hfv hgv
    simp [MultiplyDifferentiable, hfv, hgv, mul_comm]
  · intro hfv hgv hfd hgd
    simp [MultiplyDifferentiable, hfv, hgv, hfd, hgd]
  · intro e he
    simp [MultiplyDifferentiable, he]

/-- Claim C6 witness at `f = Linear 3`, `g = Linear 2`, `x = 5`:
value `150`, derivative `60`. -/
theorem C6_product_rule_witness :
    ∃ m, mul_operator (Linear 3) (.diff (Linear 2)) = .ok m ∧
      m.value 5 = .ok 150 ∧ m.derivative 5 = .ok 60 := by
  obtain ⟨m, hm, hv, hd, _⟩ := C6_product_rule (Linear 3) (Linear 2) 5 15 10 3 2
  refine ⟨m, hm, ?_, ?_⟩
  · have := hv (by norm_num [Linear]) (by norm_num [Linear])
    norm_num at this
    exact this
  · have := hd (by norm_num [Linear]) (by norm_num [Linear])
      (by simp [Linear]) (by simp [Linear])
    norm_num at this
    exact this

/-- Claim C7: at every point where `f.value` succeeds, `Sqrt(f).value`
raises a DomainError when `f`'s value is negative there, and otherwise
returns the square root of `f`'s value without error. -/
theorem C7_sqrt_domain (f : Differentiable) (x fv : ℝ)
    (hfv : f.value x = .ok fv) :
    (fv < 0 → (Sqrt f).value x = .error .domainError) ∧
    (0 ≤ fv → (Sqrt f).value x = .ok (Real.sqrt fv)) := by
  constructor
  · intro hneg
    simp [Sqrt, mathSqrt, hfv, hneg]
  · intro hpos
    simp [Sqrt, mathSqrt, hfv, not_lt.mpr hpos]

/-- Claim C7 witness: `Sqrt(Constant(-1)).value 0` raises DomainError,
and `Sqrt(Constant 9).value 0` returns `√9` without error. -/
theorem C7_sqrt_domain_witness :
    (Sqrt (Constant (-1))).value 0 = .error .domainError ∧
    (Sqrt (Constant 9)).value 0 = .ok (Real.sqrt 9) :=
  ⟨(C7_sqrt_domain (Constant (-1)) 0 (-1) (by simp [Constant])).1 (by norm_num),
   (C7_sqrt_domain (Constant 9) 0 9 (by simp [Constant])).2 (by norm_num)⟩

/-- Claim C8: for every `Differentiable` `f` and float scalar `c`, the
right-operand form `f + c` and the host's left-operand form `c + f`
(dispatched through the reflected `radd` hook) build composites with
identical value and derivative at every point, and likewise for
multiplication through the reflected `rmul` hook — both hooks are bound
to the very same operator function. -/
theorem C8_scalar_commutativity (f : Differentiable) (c x : ℝ) :
    ∃ fr fl gr gl : Differentiable,
      add_operator f (.float c) = .ok fr ∧ hostScalarLeftOp .radd c f = .ok fl ∧
      fr.value x = fl.value x ∧ fr.derivative x = fl.derivative x ∧
      mul_operator f (.float c) = .ok gr ∧ hostScalarLeftOp .rmul c f = .ok gl ∧
      gr.value x = gl.value x ∧ gr.derivative x = gl.derivative x :=
  ⟨AddConstant c f, AddConstant c f, ScaleDifferentiable c f, ScaleDifferentiable c f,
    rfl, rfl, rfl, rfl, rfl, rfl, rfl, rfl⟩

/-- Claim C9: at every point where `f`'s mappings succeed, the reverse
subtraction `c − f` (through the reflected `rsub` hook) has value
`c − f(x)` and derivative `−f'(x)`, while the forward subtraction
`f − c` has value `f(x) − c` and derivative `f'(x)` unchanged. -/
theorem C9_sub_sign_asymmetry (f : Differentiable) (c x fv fd : ℝ)
    (hv : f.value x = .ok fv) (hd : f.derivative x = .ok fd) :
    (∃ r, hostScalarLeftOp .rsub c f = .ok r ∧
      r.value x = .ok (c - fv) ∧ r.derivative x = .ok (-fd)) ∧
    (∃ s, sub_operator f (.float c) = .ok s ∧
      s.value x = .ok (fv - c) ∧ s.derivative x = .ok fd) := by
  refine ⟨⟨RSubConstant c f, rfl, ?_, ?_⟩, ⟨SubConstant c f, rfl, ?_, hd⟩⟩
  · simp [RSubConstant, hv]
  · simp [RSubConstant, hd]
  · simp [SubConstant, hv]

/-- Claim C9 witness at `f = Linear 2`, `c = 10`, `x = 2`: `10 − 2x` has
value `6` and derivative `−2` there; `2x − 10` has value `−6` and
derivative `2`. -/
theorem C9_sub_sign_asymmetry_witness :
    (∃ r, hostScalarLeftOp .rsub 10 (Linear 2) = .ok r ∧
      r.value 2 = .ok 6 ∧ r.derivative 2 = .ok (-2)) ∧
    (∃ s, sub_operator (Linear 2) (.float 10) = .ok s ∧
      s.value 2 = .ok (-6) ∧ s.derivative 2 = .ok 2) := by
  obtain ⟨h1, h2⟩ := C9_sub_sign_asymmetry (Linear 2) 10 2 4 2
    (by norm_num [Linear]) (by simp [Linear])
  norm_num at h1 h2
  exact ⟨h1, h2⟩

/-- Claim C10: the class registers no reverse-division hook, so for
every float scalar `c` and `Differentiable` `f` the expression `c / f`
is rejected by the host with a TypeError — it is not sugar for
`Constant(c) / f` and produces no composite at all. -/
theorem C10_no_reverse_division (c : ℝ) (f : Differentiable) :
    hookTable .rtruediv = none ∧
    hostScalarLeftOp .rtruediv c f = .error .typeError :=
  ⟨rfl, rfl⟩

end Differential
